import Mathlib

/-!
Shallow embedding of the distribution-plotting module (src/dist.py) of the EDA tool:
the dataset model, the argparse-style argument surface of the two command handlers
show_dist and show_biv_dist, the private plot builders, and the save/display pipeline.
External collaborators (pandas set_index, seaborn displot faceting, the utils helpers
described only by the spec) are modelled at the granularity the handlers observe.
-/

deriving instance DecidableEq for Except

namespace EDATool

/-- A cell value of the tabular dataset: the cells that matter to this module are
either strings or non-string (numeric) values. -/
inductive Value where
  | str (s : String)
  | num (n : Int)
deriving DecidableEq, Repr

/-- Column dtype: numeric columns are the ones eligible as distribution variables. -/
inductive Dtype where
  | numeric
  | object
deriving DecidableEq, Repr

/-- A named dataframe column with its dtype and cell values. -/
structure Column where
  name : String
  dtype : Dtype
  values : List Value
deriving DecidableEq, Repr

/-- A pandas-style dataframe: columns plus a row index, represented as one label
tuple per row (a plain RangeIndex is a singleton label per row). -/
structure DataFrame where
  cols : List Column
  index : List (List Value)
deriving DecidableEq, Repr

def DataFrame.nRows (df : DataFrame) : Nat := df.index.length

def DataFrame.colNames (df : DataFrame) : List String := df.cols.map Column.name

def DataFrame.findCol (df : DataFrame) (c : String) : Option Column :=
  df.cols.find? (fun col => col.name == c)

def DataFrame.colValues (df : DataFrame) (c : String) : List Value :=
  match df.findCol c with
  | some col => col.values
  | none => []

/-- Every column holds exactly one value per row of the index. -/
def DataFrame.WellFormed (df : DataFrame) : Prop :=
  ∀ c ∈ df.cols, c.values.length = df.nRows

instance (df : DataFrame) : Decidable df.WellFormed := by
  unfold DataFrame.WellFormed
  infer_instance

/-- Core of pandas set_index(keys): the key columns become the row index (one tuple
of key-column values per row, in key order) and are removed from the columns;
none (a KeyError) when some key is not a column. -/
def setIndexCore (df : DataFrame) (keys : List String) : Option DataFrame :=
  if keys.all (fun k => (df.findCol k).isSome) then
    some { cols := df.cols.filter (fun c => !(keys.contains c.name)),
           index := (List.range df.nRows).map
             (fun i => (keys.filterMap df.findCol).map
               (fun c => c.values.getD i (Value.str ""))) }
  else none

/-- pandas DataFrame.set_index(keys, inplace): the pair is (call result, receiver
after the call). With inplace = false, as in the source (no inplace=True is passed),
the re-indexed copy is returned and the receiver is untouched; with inplace = true
the result is Python None and the receiver is replaced. -/
def DataFrame.set_index (df : DataFrame) (keys : List String) (inplace : Bool) :
    Option (Option DataFrame × DataFrame) :=
  (setIndexCore df keys).map (fun r => if inplace then (none, r) else (some r, df))

/-- Errors the argparse layer reports; argparse terminates the command with a usage
error (SystemExit) in each case. -/
inductive ParseError where
  | invalidChoice (dest : String)
  | missingArguments
  | unrecognizedArguments
deriving DecidableEq, Repr

/-- Python-level exceptions the module can raise or propagate. -/
inductive PyError where
  | usageError (e : ParseError)
  | typeError
  | keyError
  | attributeError
deriving DecidableEq, Repr

/-- Modelled from the spec: utils.get_numericals (the utils module is not under
src/), described as yielding the dataset's numerical columns; it returns the names
of the columns of numeric dtype. -/
def get_numericals (df : DataFrame) : List String :=
  (df.cols.filter (fun c => c.dtype == Dtype.numeric)).map Column.name

def endsWithPng (f : String) : Bool :=
  match f.data.reverse with
  | 'g' :: 'n' :: 'p' :: '.' :: _ => true
  | _ => false

/-- Modelled from the spec: utils.check_valid_png (the extension-checking utility,
not under src/); it returns -1 when the output filename lacks the recognized image
extension ".png" and a non-negative value otherwise. -/
def check_valid_png (f : String) : Int :=
  if endsWithPng f then 0 else -1

def allDigits : List Char → Bool
  | [] => true
  | c :: cs => c.isDigit && allDigits cs

/-- Matches the tail (after the minus sign) of a fraction-shaped negative number:
digits, then a dot, then at least one digit. -/
def negNumFrac : List Char → Bool
  | [] => false
  | c :: cs => if c = '.' then !cs.isEmpty && allDigits cs else c.isDigit && negNumFrac cs

/-- Matches argparse's negative-number heuristic: a token of shape -digits or
-digits.digits (the parser declares no negative-number-like option strings, so such
tokens are treated as positional arguments). -/
def isNegNumberToken (t : String) : Bool :=
  match t.data with
  | '-' :: rest => (!rest.isEmpty && allDigits rest) || negNumFrac rest
  | _ => false

/-- argparse token classification: a token is treated as an option string when it
starts with a minus sign, is not the bare "-", and does not look like a negative
number. -/
def isOpt (t : String) : Bool :=
  match t.data with
  | '-' :: rest => !rest.isEmpty && !(isNegNumberToken t)
  | _ => false

def notOptTok (t : String) : Bool := !(isOpt t)

/-- Raw result of scanning the token list: the collected positional tokens, and the
latest occurrence of each option. For outfile, none means the flag was absent,
some none means the flag was given without a value (argparse stores Python None),
some (some f) means the value f. For cats, none means the flag was absent. -/
structure RawArgs where
  positionals : List String
  outfile : Option (Option String)
  cats : Option (List String)
deriving DecidableEq, Repr

/-- One argparse pass over the tokens for the option surface both handlers declare:
-o (long form --outfile) takes an optional value, -c (long form --categoricals)
consumes the following run of non-option tokens, a bare "--" ends option
processing, any other option-like token is rejected, and everything else is a
positional. Fuel keeps the recursion structural; every step consumes at least one
token, so args.length + 1 suffices. -/
def scanFuel : Nat → List String → RawArgs → Except ParseError RawArgs
  | 0, _, _ => .error .unrecognizedArguments
  | _ + 1, [], acc => .ok acc
  | fuel + 1, t :: ts, acc =>
    if t = "--" then
      .ok { acc with positionals := acc.positionals ++ ts }
    else if t = "-o" ∨ t = "--outfile" then
      match ts with
      | [] => .ok { acc with outfile := some none }
      | u :: us =>
        if isOpt u then scanFuel fuel (u :: us) { acc with outfile := some none }
        else scanFuel fuel us { acc with outfile := some (some u) }
    else if t = "-c" ∨ t = "--categoricals" then
      scanFuel fuel (ts.dropWhile notOptTok) { acc with cats := some (ts.takeWhile notOptTok) }
    else if isOpt t then
      .error .unrecognizedArguments
    else
      scanFuel fuel ts { acc with positionals := acc.positionals ++ [t] }

def scanArgs (args : List String) : Except ParseError RawArgs :=
  scanFuel (args.length + 1) args { positionals := [], outfile := none, cats := none }

/-- Each requested categorical must be an existing dataset column
(argparse choices=data.columns.values). -/
def validCats (data : DataFrame) (cats : List String) : Bool :=
  cats.all (fun c => decide (c ∈ data.colNames))

/-- Parsed arguments of the univariate handler. -/
structure DistArgs where
  var : String
  outfile : Option String
  categoricals : List String
deriving DecidableEq, Repr

/-- argparse layer of show_dist: one required positional var validated against the
numerical columns, an optional outfile option defaulting to "output.png", and an
optional categoricals option validated against all column names, defaulting to []. -/
def parseDistArgs (data : DataFrame) (args : List String) : Except ParseError DistArgs :=
  match scanArgs args with
  | .error e => .error e
  | .ok raw =>
    match raw.positionals with
    | [] => .error .missingArguments
    | [v] =>
      if v ∈ get_numericals data then
        if validCats data (raw.cats.getD []) then
          .ok { var := v, outfile := raw.outfile.getD (some "output.png"),
                categoricals := raw.cats.getD [] }
        else .error (.invalidChoice "categoricals")
      else .error (.invalidChoice "var")
    | _ :: _ :: _ => .error .unrecognizedArguments

/-- Parsed arguments of the bivariate handler. -/
structure BivArgs where
  v1 : String
  v2 : String
  plot_type : String
  outfile : Option String
  categoricals : List String
deriving DecidableEq, Repr

/-- argparse layer of show_biv_dist: required positionals v1 and v2 validated
against the numerical columns, an optional positional plot_type restricted to
heatmap or gaussian and defaulting to "heatmap", plus the same two options as the
univariate handler. -/
def parseBivArgs (data : DataFrame) (args : List String) : Except ParseError BivArgs :=
  match scanArgs args with
  | .error e => .error e
  | .ok raw =>
    match raw.positionals with
    | [] => .error .missingArguments
    | [_] => .error .missingArguments
    | [a, b] =>
      if a ∈ get_numericals data then
        if b ∈ get_numericals data then
          if validCats data (raw.cats.getD []) then
            .ok { v1 := a, v2 := b, plot_type := "heatmap",
                  outfile := raw.outfile.getD (some "output.png"),
                  categoricals := raw.cats.getD [] }
          else .error (.invalidChoice "categoricals")
        else .error (.invalidChoice "v2")
      else .error (.invalidChoice "v1")
    | [a, b, c] =>
      if a ∈ get_numericals data then
        if b ∈ get_numericals data then
          if c = "heatmap" ∨ c = "gaussian" then
            if validCats data (raw.cats.getD []) then
              .ok { v1 := a, v2 := b, plot_type := c,
                    outfile := raw.outfile.getD (some "output.png"),
                    categoricals := raw.cats.getD [] }
            else .error (.invalidChoice "categoricals")
          else .error (.invalidChoice "plot_type")
        else .error (.invalidChoice "v2")
      else .error (.invalidChoice "v1")
    | _ :: _ :: _ :: _ :: _ => .error .unrecognizedArguments

/-- The col assignment handed to seaborn displot: either a dataframe column name or
an externally supplied vector of per-row facet labels. -/
inductive ColSpec where
  | colName (c : String)
  | vector (labels : List String)
deriving DecidableEq, Repr

/-- Record of one seaborn displot call: the dataframe and the keyword arguments the
module passes. displot defaults: kind "hist", no y, no faceting. -/
structure Displot where
  data : DataFrame
  x : String
  y : Option String := none
  kind : String := "hist"
  kde : Bool := false
  bins : Option String := none
  color : Option String := none
  col : Option ColSpec := none
  col_wrap : Option Nat := none
deriving DecidableEq, Repr

/-- Models seaborn faceting: displot lays out one facet (subplot) per distinct value
of the col assignment, wrapped according to col_wrap; with no col there is a single
subplot. -/
def Displot.numFacets (p : Displot) : Nat :=
  match p.col with
  | none => 1
  | some (ColSpec.colName c) => ((p.data.colValues c).dedup).length
  | some (ColSpec.vector labels) => (labels.dedup).length

def Value.isStr : Value → Bool
  | .str _ => true
  | .num _ => false

/-- Extracts the strings of a tuple left to right, stopping at the first
non-string element. -/
def strsOfRow : List Value → Option (List String)
  | [] => some []
  | .str s :: rest => (strsOfRow rest).map (fun parts => s :: parts)
  | .num _ :: _ => none

/-- Python str.join over one index tuple: every element must be a string, otherwise
a TypeError is raised. -/
def joinRow (row : List Value) : Except PyError String :=
  match strsOfRow row with
  | some parts => .ok (String.intercalate "_" parts)
  | none => .error .typeError

/-- The list comprehension fusing the multiindex into composite labels, one per
row; the first exception aborts the comprehension. -/
def joinIndexRows : List (List Value) → Except PyError (List String)
  | [] => .ok []
  | row :: rest =>
    match joinRow row with
    | .error e => .error e
    | .ok s =>
      match joinIndexRows rest with
      | .error e => .error e
      | .ok ls => .ok (s :: ls)

/-- Whether an Except computation succeeded. -/
def exceptOk {ε α : Type} : Except ε α → Bool
  | .ok _ => true
  | .error _ => false

/-- Embeds plot_dist (double-underscore private in the source): a single
histogram-plus-kde displot of var over the whole dataset. -/
def plot_dist (data : DataFrame) (var : String) : Displot :=
  { data := data, x := var, kde := true, color := some "r", bins := some "sqrt" }

/-- Embeds plot_dist_by_categoricals: for more than one categorical, re-index a copy
of the data on the categoricals, fuse the multiindex into underscore-joined labels,
and facet the re-indexed copy on that label vector; for a single categorical, facet
the data on that column. The second component of the result is the binding of the
data argument when the function returns. -/
def plot_dist_by_categoricals (data : DataFrame) (var : String)
    (categoricals : List String) : Except PyError (Displot × DataFrame) :=
  if 1 < categoricals.length then
    match data.set_index categoricals false with
    | none => .error .keyError
    | some (none, _) => .error .attributeError
    | some (some plotData, dataAfter) =>
      match joinIndexRows plotData.index with
      | .error e => .error e
      | .ok labels =>
        .ok ({ data := { plotData with index := labels.map (fun l => [Value.str l]) },
               x := var, kde := true, bins := some "sqrt",
               col := some (ColSpec.vector labels), col_wrap := some 3 }, dataAfter)
  else
    .ok ({ data := data, x := var, kde := true, bins := some "sqrt",
           col := some (ColSpec.colName categoricals.headI), col_wrap := some 3 }, data)

/-- Embeds plot_biv_dist: a single joint displot of v1 and v2, with kind kde for
plot_type gaussian and kind hist otherwise. -/
def plot_biv_dist (data : DataFrame) (v1 v2 plot_type : String) : Displot :=
  { data := data, x := v1, y := some v2,
    kind := if plot_type = "gaussian" then "kde" else "hist" }

/-- Embeds plot_biv_dist_by_categoricals: same composite-label construction as the
univariate version, but the displot call receives the original data argument (the
source passes data, not plot_data) faceted on the fused label vector; for a single
categorical, facet the data on that column. -/
def plot_biv_dist_by_categoricals (data : DataFrame) (v1 v2 plot_type : String)
    (categoricals : List String) : Except PyError (Displot × DataFrame) :=
  if 1 < categoricals.length then
    match data.set_index categoricals false with
    | none => .error .keyError
    | some (none, _) => .error .attributeError
    | some (some plotData, dataAfter) =>
      match joinIndexRows plotData.index with
      | .error e => .error e
      | .ok labels =>
        .ok ({ data := data, x := v1, y := some v2,
               kind := if plot_type = "gaussian" then "kde" else "hist",
               col := some (ColSpec.vector labels), col_wrap := some 3 }, dataAfter)
  else
    .ok ({ data := data, x := v1, y := some v2,
           kind := if plot_type = "gaussian" then "kde" else "hist",
           col := some (ColSpec.colName categoricals.headI), col_wrap := some 3 }, data)

/-- Observable file and display actions of one handler call, in order. -/
inductive Event where
  | savefig (file : String)
  | openImage (file : String)
  | showImage (file : String)
deriving DecidableEq, Repr

/-- Outcome of a handler call that did not raise: the ordered side effects, the
displot built (none when the handler aborted early), and the binding of the data
argument when the handler returns. -/
structure RunResult where
  events : List Event
  plot : Option Displot
  dataAfter : DataFrame
deriving DecidableEq, Repr

/-- Embeds show_dist: parse the tokens, abort silently when the output filename is
not a recognized image file, build the plot (faceted when categoricals were given),
save the figure to the output file, then open and display that saved file. -/
def show_dist (data : DataFrame) (args : List String) : Except PyError RunResult :=
  match parseDistArgs data args with
  | .error e => .error (.usageError e)
  | .ok pa =>
    match pa.outfile with
    | none => .error .typeError
    | some f =>
      if check_valid_png f = -1 then
        .ok { events := [], plot := none, dataAfter := data }
      else
        match (if pa.categoricals = [] then .ok (plot_dist data pa.var, data)
               else plot_dist_by_categoricals data pa.var pa.categoricals) with
        | .error e => .error e
        | .ok pd =>
          .ok { events := [.savefig f, .openImage f, .showImage f],
                plot := some pd.1, dataAfter := pd.2 }

/-- Embeds show_biv_dist: same pipeline as show_dist with the bivariate parser and
plot builders. -/
def show_biv_dist (data : DataFrame) (args : List String) : Except PyError RunResult :=
  match parseBivArgs data args with
  | .error e => .error (.usageError e)
  | .ok pa =>
    match pa.outfile with
    | none => .error .typeError
    | some f =>
      if check_valid_png f = -1 then
        .ok { events := [], plot := none, dataAfter := data }
      else
        match (if pa.categoricals = [] then
                 .ok (plot_biv_dist data pa.v1 pa.v2 pa.plot_type, data)
               else plot_biv_dist_by_categoricals data pa.v1 pa.v2 pa.plot_type
                 pa.categoricals) with
        | .error e => .error e
        | .ok pd =>
          .ok { events := [.savefig f, .openImage f, .showImage f],
                plot := some pd.1, dataAfter := pd.2 }

/-- A small concrete dataset: numerical column age, categorical string columns sex
and city, with a default range index. -/
def dfW : DataFrame :=
  { cols := [
      { name := "age", dtype := Dtype.numeric,
        values := [Value.num 1, Value.num 2, Value.num 3, Value.num 4] },
      { name := "sex", dtype := Dtype.object,
        values := [Value.str "m", Value.str "f", Value.str "m", Value.str "f"] },
      { name := "city", dtype := Dtype.object,
        values := [Value.str "a", Value.str "a", Value.str "b", Value.str "b"] } ],
    index := [[Value.num 0], [Value.num 1], [Value.num 2], [Value.num 3]] }

/-- The result of re-indexing dfW on sex and city (computed by setIndexCore). -/
def pdW : DataFrame :=
  { cols := [
      { name := "age", dtype := Dtype.numeric,
        values := [Value.num 1, Value.num 2, Value.num 3, Value.num 4] } ],
    index := [[Value.str "m", Value.str "a"], [Value.str "f", Value.str "a"],
              [Value.str "m", Value.str "b"], [Value.str "f", Value.str "b"]] }

/-- A dataset whose numerical column is named like an option flag. -/
def dfDash : DataFrame :=
  { cols := [
      { name := "-x", dtype := Dtype.numeric, values := [Value.num 1, Value.num 2] },
      { name := "sex", dtype := Dtype.object, values := [Value.str "m", Value.str "f"] } ],
    index := [[Value.num 0], [Value.num 1]] }

/-- A dataset with a non-string (numeric) categorical column zip. -/
def dfBad : DataFrame :=
  { cols := [
      { name := "age", dtype := Dtype.numeric, values := [Value.num 1, Value.num 2] },
      { name := "sex", dtype := Dtype.object, values := [Value.str "m", Value.str "f"] },
      { name := "zip", dtype := Dtype.numeric, values := [Value.num 10, Value.num 20] } ],
    index := [[Value.num 0], [Value.num 1]] }

/-- The result of re-indexing dfBad on sex and zip (computed by setIndexCore). -/
def pdBad : DataFrame :=
  { cols := [
      { name := "age", dtype := Dtype.numeric, values := [Value.num 1, Value.num 2] } ],
    index := [[Value.str "m", Value.num 10], [Value.str "f", Value.num 20]] }

/-- The fusion of pdW's multiindex into composite single labels. -/
def fusedW : DataFrame :=
  { cols := pdW.cols,
    index := [[Value.str "m_a"], [Value.str "f_a"], [Value.str "m_b"], [Value.str "f_b"]] }

def labelsW : List String := ["m_a", "f_a", "m_b", "f_b"]

/-- The displot the univariate handler builds for dfW faceted on sex and city. -/
def pUnivW : Displot :=
  { data := fusedW, x := "age", kde := true, bins := some "sqrt",
    col := some (ColSpec.vector labelsW), col_wrap := some 3 }

/-- The displot the bivariate handler builds for dfW faceted on sex and city. -/
def pBivW : Displot :=
  { data := dfW, x := "age", y := some "age", kind := "hist",
    col := some (ColSpec.vector labelsW), col_wrap := some 3 }

/-- The run result of the faceted univariate call on dfW. -/
def rW : RunResult :=
  { events := [Event.savefig "output.png", Event.openImage "output.png",
               Event.showImage "output.png"],
    plot := some pUnivW, dataAfter := dfW }

/-- The run result of the plain univariate call on dfW. -/
def rPlainW : RunResult :=
  { events := [Event.savefig "output.png", Event.openImage "output.png",
               Event.showImage "output.png"],
    plot := some (plot_dist dfW "age"), dataAfter := dfW }

theorem not_opt_ne (t s : String) (ht : isOpt t = false) (hs : isOpt s = true) : t ≠ s := by
  intro h
  rw [h, hs] at ht
  simp at ht

theorem scanFuel_positionals (ts : List String) (n : Nat) (acc : RawArgs)
    (h : ∀ t ∈ ts, isOpt t = false) (hn : ts.length < n) :
    scanFuel n ts acc = .ok { acc with positionals := acc.positionals ++ ts } := by
  induction ts generalizing n acc with
  | nil =>
    cases n with
    | zero => omega
    | succ m => simp [scanFuel]
  | cons t ts ih =>
    cases n with
    | zero => simp at hn
    | succ m =>
      have ht : isOpt t = false := h t (List.mem_cons_self t ts)
      have h1 : ¬ t = "--" := not_opt_ne t "--" ht (by decide)
      have h2 : ¬ (t = "-o" ∨ t = "--outfile") := by
        rintro (rfl | rfl) <;> exact not_opt_ne _ _ ht (by decide) rfl
      have h3 : ¬ (t = "-c" ∨ t = "--categoricals") := by
        rintro (rfl | rfl) <;> exact not_opt_ne _ _ ht (by decide) rfl
      rw [scanFuel.eq_def]
      simp only []
      rw [if_neg h1, if_neg h2, if_neg h3, if_neg (by simp [ht])]
      rw [ih m { acc with positionals := acc.positionals ++ [t] }
            (fun u hu => h u (List.mem_cons_of_mem t hu)) (by simpa using Nat.lt_of_succ_lt_succ hn)]
      simp

theorem validCats_sound (data : DataFrame) (cats : List String)
    (h : validCats data cats = true) : ∀ c ∈ cats, c ∈ data.colNames := by
  intro c hc
  exact of_decide_eq_true (List.all_eq_true.mp h c hc)

theorem set_index_false_of_core (df : DataFrame) (keys : List String) (pd : DataFrame)
    (h : setIndexCore df keys = some pd) :
    df.set_index keys false = some (some pd, df) := by
  simp [DataFrame.set_index, h]

theorem set_index_false_receiver (df : DataFrame) (keys : List String)
    (ret : Option DataFrame) (dAfter : DataFrame)
    (h : df.set_index keys false = some (ret, dAfter)) : dAfter = df := by
  unfold DataFrame.set_index at h
  cases hc : setIndexCore df keys with
  | none => rw [hc] at h; simp at h
  | some r =>
    rw [hc] at h
    simp at h
    exact h.2.symm

theorem plot_dist_by_categoricals_receiver (data : DataFrame) (v : String)
    (cats : List String) (pd : Displot × DataFrame)
    (h : plot_dist_by_categoricals data v cats = .ok pd) : pd.2 = data := by
  unfold plot_dist_by_categoricals at h
  split at h
  · split at h
    · simp at h
    · simp at h
    next ret plotData dataAfter heq =>
      split at h
      · simp at h
      next labels hj =>
        injection h with h
        subst h
        exact set_index_false_receiver data cats (some plotData) dataAfter heq
  · injection h with h
    subst h
    rfl

theorem plot_biv_dist_by_categoricals_receiver (data : DataFrame) (v1 v2 pt : String)
    (cats : List String) (pd : Displot × DataFrame)
    (h : plot_biv_dist_by_categoricals data v1 v2 pt cats = .ok pd) : pd.2 = data := by
  unfold plot_biv_dist_by_categoricals at h
  split at h
  · split at h
    · simp at h
    · simp at h
    next ret plotData dataAfter heq =>
      split at h
      · simp at h
      next labels hj =>
        injection h with h
        subst h
        exact set_index_false_receiver data cats (some plotData) dataAfter heq
  · injection h with h
    subst h
    rfl

/-- C2: for every call to either handler whose parsed output filename lacks a
recognized image extension (check_valid_png returns -1), the handler returns early
without raising: no plot is built and no file event occurs. -/
theorem c2_bad_extension_aborts (data : DataFrame) (args : List String) (f : String)
    (hext : check_valid_png f = -1) :
    (∀ pa, parseDistArgs data args = .ok pa → pa.outfile = some f →
        show_dist data args = .ok { events := [], plot := none, dataAfter := data })
    ∧ (∀ pa, parseBivArgs data args = .ok pa → pa.outfile = some f →
        show_biv_dist data args = .ok { events := [], plot := none, dataAfter := data }) := by
  constructor
  · intro pa hp ho
    simp [show_dist, hp, ho, hext]
  · intro pa hp ho
    simp [show_biv_dist, hp, ho, hext]

/-- C2 witness: a concrete run with a non-png output filename aborts silently. -/
theorem c2_bad_extension_aborts_witness :
    check_valid_png "out.txt" = -1
    ∧ show_dist dfW ["age", "-o", "out.txt"]
        = .ok { events := [], plot := none, dataAfter := dfW } :=
  ⟨by decide,
   (c2_bad_extension_aborts dfW ["age", "-o", "out.txt"] "out.txt" (by decide)).1
     ⟨"age", some "out.txt", []⟩ (by decide) (by decide)⟩

/-- C3: the argument-parsing layer only accepts a variable among the numerical
columns and categoricals that are existing columns, and a parse error propagates
uncaught out of either handler before any plot is built or file written. -/
theorem c3_parse_rejects_invalid_names (data : DataFrame) (args : List String) :
    (∀ pa, parseDistArgs data args = .ok pa →
        pa.var ∈ get_numericals data ∧ ∀ c ∈ pa.categoricals, c ∈ data.colNames)
    ∧ (∀ e, parseDistArgs data args = .error e →
        show_dist data args = .error (.usageError e))
    ∧ (∀ pa, parseBivArgs data args = .ok pa →
        pa.v1 ∈ get_numericals data ∧ pa.v2 ∈ get_numericals data
          ∧ ∀ c ∈ pa.categoricals, c ∈ data.colNames)
    ∧ (∀ e, parseBivArgs data args = .error e →
        show_biv_dist data args = .error (.usageError e)) := by
  refine ⟨?_, ?_, ?_, ?_⟩
  · intro pa h
    unfold parseDistArgs at h
    split at h
    · simp at h
    · split at h
      · simp at h
      next v =>
        split at h
        next hv =>
          split at h
          next hcats =>
            injection h with h
            subst h
            exact ⟨hv, validCats_sound _ _ hcats⟩
          · simp at h
        · simp at h
      · simp at h
  · intro e h
    simp [show_dist, h]
  · intro pa h
    unfold parseBivArgs at h
    split at h
    · simp at h
    · split at h
      · simp at h
      · simp at h
      next a b =>
        split at h
        next ha =>
          split at h
          next hb =>
            split at h
            next hcats =>
              injection h with h
              subst h
              exact ⟨ha, hb, validCats_sound _ _ hcats⟩
            · simp at h
          · simp at h
        · simp at h
      next a b c =>
        split at h
        next ha =>
          split at h
          next hb =>
            split at h
            · split at h
              next hcats =>
                injection h with h
                subst h
                exact ⟨ha, hb, validCats_sound _ _ hcats⟩
              · simp at h
            · simp at h
          · simp at h
        · simp at h
      · simp at h
  · intro e h
    simp [show_biv_dist, h]

/-- C3 witness: concrete invalid-choice rejections propagating from both handlers. -/
theorem c3_parse_rejects_invalid_names_witness :
    show_dist dfW ["zzz"] = .error (.usageError (.invalidChoice "var"))
    ∧ show_dist dfW ["age", "-c", "nope"]
        = .error (.usageError (.invalidChoice "categoricals"))
    ∧ show_biv_dist dfW ["age", "zzz"] = .error (.usageError (.invalidChoice "v2")) :=
  ⟨(c3_parse_rejects_invalid_names dfW ["zzz"]).2.1 _ (by decide),
   (c3_parse_rejects_invalid_names dfW ["age", "-c", "nope"]).2.1 _ (by decide),
   (c3_parse_rejects_invalid_names dfW ["age", "zzz"]).2.2.2 _ (by decide)⟩

/-- C7: neither handler mutates the input dataset: set_index is called without
inplace, so the binding of the data argument after a completed call is the input
dataframe, unchanged in columns, index and values. -/
theorem c7_no_mutation (data : DataFrame) (args : List String) :
    (∀ r, show_dist data args = .ok r → r.dataAfter = data)
    ∧ (∀ r, show_biv_dist data args = .ok r → r.dataAfter = data) := by
  constructor
  · intro r h
    unfold show_dist at h
    split at h
    · simp at h
    · split at h
      · simp at h
      · split at h
        · injection h with h
          subst h
          rfl
        · split at h
          · simp at h
          next pd hpd =>
            injection h with h
            subst h
            split at hpd
            · injection hpd with hpd
              subst hpd
              rfl
            · exact plot_dist_by_categoricals_receiver _ _ _ _ hpd
  · intro r h
    unfold show_biv_dist at h
    split at h
    · simp at h
    · split at h
      · simp at h
      · split at h
        · injection h with h
          subst h
          rfl
        · split at h
          · simp at h
          next pd hpd =>
            injection h with h
            subst h
            split at hpd
            · injection hpd with hpd
              subst hpd
              rfl
            · exact plot_biv_dist_by_categoricals_receiver _ _ _ _ _ _ hpd

/-- C7 witness: a concrete faceted run (which exercises set_index) leaves the
caller's dataframe unchanged. -/
theorem c7_no_mutation_witness : rW.dataAfter = dfW :=
  (c7_no_mutation dfW ["age", "-c", "sex", "city"]).1 rW (by decide)

/-- C8: in every successful call that builds a plot, the events are exactly: save
the figure to the parsed output file, then reopen that same file, then display it. -/
theorem c8_pipeline_order (data : DataFrame) (args : List String) (f : String) :
    (∀ pa r, parseDistArgs data args = .ok pa → pa.outfile = some f →
        show_dist data args = .ok r → r.plot ≠ none →
        r.events = [Event.savefig f, Event.openImage f, Event.showImage f])
    ∧ (∀ pa r, parseBivArgs data args = .ok pa → pa.outfile = some f →
        show_biv_dist data args = .ok r → r.plot ≠ none →
        r.events = [Event.savefig f, Event.openImage f, Event.showImage f]) := by
  constructor
  · intro pa r hp ho hr hplot
    simp only [show_dist, hp, ho] at hr
    split at hr
    · injection hr with h
      subst h
      simp at hplot
    · split at hr
      · simp at hr
      · injection hr with h
        subst h
        rfl
  · intro pa r hp ho hr hplot
    simp only [show_biv_dist, hp, ho] at hr
    split at hr
    · injection hr with h
      subst h
      simp at hplot
    · split at hr
      · simp at hr
      · injection hr with h
        subst h
        rfl

/-- C8 witness: the concrete plain univariate run saves to output.png and then
reopens and displays that same file. -/
theorem c8_pipeline_order_witness :
    rPlainW.events = [Event.savefig "output.png", Event.openImage "output.png",
                      Event.showImage "output.png"] :=
  (c8_pipeline_order dfW ["age"] "output.png").1 ⟨"age", some "output.png", []⟩
    rPlainW (by decide) (by decide) (by decide) (by decide)

/-- C4: plot_type surface of the bivariate handler: only heatmap or gaussian ever
parse; with no plot_type token the parsed value defaults to heatmap; a non-option
third token that is neither choice is rejected at parse time as an invalid choice;
and the kind handed to displot is kde for gaussian and hist for heatmap, in both
the plain and the faceted builder. -/
theorem c4_plot_type_mapping (data : DataFrame) (args : List String)
    (a b c v1 v2 : String)
    (ha : a ∈ get_numericals data) (hb : b ∈ get_numericals data)
    (hoa : isOpt a = false) (hob : isOpt b = false) (hoc : isOpt c = false)
    (hc1 : c ≠ "heatmap") (hc2 : c ≠ "gaussian") :
    (∀ pa, parseBivArgs data args = .ok pa →
        pa.plot_type = "heatmap" ∨ pa.plot_type = "gaussian")
    ∧ (∀ pa, parseBivArgs data [a, b] = .ok pa → pa.plot_type = "heatmap")
    ∧ parseBivArgs data [a, b, c] = .error (.invalidChoice "plot_type")
    ∧ (plot_biv_dist data v1 v2 "gaussian").kind = "kde"
    ∧ (plot_biv_dist data v1 v2 "heatmap").kind = "hist"
    ∧ (∀ cats pd, plot_biv_dist_by_categoricals data v1 v2 "gaussian" cats = .ok pd →
        pd.1.kind = "kde")
    ∧ (∀ cats pd, plot_biv_dist_by_categoricals data v1 v2 "heatmap" cats = .ok pd →
        pd.1.kind = "hist") := by
  have hscan2 : scanArgs [a, b]
      = .ok { positionals := [a, b], outfile := none, cats := none } := by
    have := scanFuel_positionals [a, b] 3 { positionals := [], outfile := none, cats := none }
      (by
        intro t ht
        simp at ht
        rcases ht with rfl | rfl
        · exact hoa
        · exact hob) (by simp)
    simpa [scanArgs] using this
  have hscan3 : scanArgs [a, b, c]
      = .ok { positionals := [a, b, c], outfile := none, cats := none } := by
    have := scanFuel_positionals [a, b, c] 4 { positionals := [], outfile := none, cats := none }
      (by
        intro t ht
        simp at ht
        rcases ht with rfl | rfl | rfl
        · exact hoa
        · exact hob
        · exact hoc) (by simp)
    simpa [scanArgs] using this
  refine ⟨?_, ?_, ?_, ?_, ?_, ?_, ?_⟩
  · intro pa h
    unfold parseBivArgs at h
    split at h
    · simp at h
    · split at h
      · simp at h
      · simp at h
      · split at h
        · split at h
          · split at h
            · injection h with h
              subst h
              exact Or.inl rfl
            · simp at h
          · simp at h
        · simp at h
      next x y z =>
        split at h
        · split at h
          · split at h
            next hpt =>
              split at h
              · injection h with h
                subst h
                exact hpt
              · simp at h
            next => simp at h
          · simp at h
        · simp at h
      · simp at h
  · intro pa h
    rw [parseBivArgs, hscan2] at h
    simp only [if_pos ha, if_pos hb] at h
    split at h
    · injection h with h
      subst h
      rfl
    · simp at h
  · rw [parseBivArgs, hscan3]
    simp only [if_pos ha, if_pos hb]
    rw [if_neg (by rintro (rfl | rfl) <;> simp at hc1 hc2)]
  · simp [plot_biv_dist]
  · simp [plot_biv_dist]
  · intro cats pd h
    unfold plot_biv_dist_by_categoricals at h
    split at h
    · split at h
      · simp at h
      · simp at h
      · split at h
        · simp at h
        · injection h with h
          subst h
          simp
    · injection h with h
      subst h
      simp
  · intro cats pd h
    unfold plot_biv_dist_by_categoricals at h
    split at h
    · split at h
      · simp at h
      · simp at h
      · split at h
        · simp at h
        · injection h with h
          subst h
          simp
    · injection h with h
      subst h
      simp

/-- C4 witness: concrete rejection of a third token that is neither choice, and the
concrete kind mapping. -/
theorem c4_plot_type_mapping_witness :
    parseBivArgs dfW ["age", "age", "other"] = .error (.invalidChoice "plot_type")
    ∧ (plot_biv_dist dfW "age" "age" "gaussian").kind = "kde"
    ∧ (plot_biv_dist dfW "age" "age" "heatmap").kind = "hist" := by
  have H := c4_plot_type_mapping dfW [] "age" "age" "other" "age" "age" (by decide)
    (by decide) (by decide) (by decide) (by decide) (by decide) (by decide)
  exact ⟨H.2.2.1, H.2.2.2.1, H.2.2.2.2.1⟩

/-- C5: every faceted figure wraps at 3 columns; a single categorical yields one
facet per distinct value of that column, and two or more categoricals yield one
facet per distinct underscore-joined label. -/
theorem c5_facet_counts (data : DataFrame) (v v1 v2 pt c : String) (cats : List String)
    (plotData : DataFrame) (labels : List String)
    (hlen : 1 < cats.length)
    (hset : setIndexCore data cats = some plotData)
    (hjoin : joinIndexRows plotData.index = .ok labels) :
    (plot_dist_by_categoricals data v [c]).map (fun pd => (pd.1.numFacets, pd.1.col_wrap))
      = .ok (((data.colValues c).dedup).length, some 3)
    ∧ (plot_biv_dist_by_categoricals data v1 v2 pt [c]).map
        (fun pd => (pd.1.numFacets, pd.1.col_wrap))
      = .ok (((data.colValues c).dedup).length, some 3)
    ∧ (plot_dist_by_categoricals data v cats).map (fun pd => (pd.1.numFacets, pd.1.col_wrap))
      = .ok ((labels.dedup).length, some 3)
    ∧ (plot_biv_dist_by_categoricals data v1 v2 pt cats).map
        (fun pd => (pd.1.numFacets, pd.1.col_wrap))
      = .ok ((labels.dedup).length, some 3) := by
  refine ⟨?_, ?_, ?_, ?_⟩
  · simp [plot_dist_by_categoricals, Displot.numFacets, Except.map]
  · simp [plot_biv_dist_by_categoricals, Displot.numFacets, Except.map]
  · unfold plot_dist_by_categoricals
    rw [if_pos hlen, set_index_false_of_core _ _ _ hset]
    simp [hjoin, Displot.numFacets, Except.map]
  · unfold plot_biv_dist_by_categoricals
    rw [if_pos hlen, set_index_false_of_core _ _ _ hset]
    simp [hjoin, Displot.numFacets, Except.map]

/-- C5 witness: on the concrete dataset, faceting on sex yields one facet per
distinct sex value, and faceting on sex and city yields one facet per distinct
joined pair, wrapped at 3. -/
theorem c5_facet_counts_witness :
    (plot_dist_by_categoricals dfW "age" ["sex"]).map
        (fun pd => (pd.1.numFacets, pd.1.col_wrap))
      = .ok (((dfW.colValues "sex").dedup).length, some 3)
    ∧ (plot_dist_by_categoricals dfW "age" ["sex", "city"]).map
        (fun pd => (pd.1.numFacets, pd.1.col_wrap))
      = .ok ((labelsW.dedup).length, some 3) := by
  have H := c5_facet_counts dfW "age" "age" "age" "heatmap" "sex" ["sex", "city"] pdW
    labelsW (by decide) (by decide) (by decide)
  exact ⟨H.1, H.2.2.1⟩

/-- C6 counterexample: a numerical column whose name is an option-like token is
rejected by the argparse layer instead of producing output.png, so the claim fails
as universally stated. -/
theorem c6_counterexample :
    "-x" ∈ get_numericals dfDash
    ∧ show_dist dfDash ["-x"] = .error (.usageError .unrecognizedArguments) := by
  decide

/-- C6 (amended): for every numerical column whose name is not an option-like
token, the univariate call with only that variable parses the output filename as
output.png, saves the figure there, and reopens and displays that file. -/
theorem c6_default_outfile (data : DataFrame) (v : String)
    (hv : v ∈ get_numericals data) (hopt : isOpt v = false) :
    parseDistArgs data [v]
      = .ok { var := v, outfile := some "output.png", categoricals := [] }
    ∧ show_dist data [v]
      = .ok { events := [Event.savefig "output.png", Event.openImage "output.png",
                         Event.showImage "output.png"],
              plot := some (plot_dist data v), dataAfter := data } := by
  have hscan : scanArgs [v] = .ok { positionals := [v], outfile := none, cats := none } := by
    have := scanFuel_positionals [v] 2 { positionals := [], outfile := none, cats := none }
      (by
        intro t ht
        have : t = v := by simpa using ht
        subst this
        exact hopt) (by simp)
    simpa [scanArgs] using this
  have hparse : parseDistArgs data [v]
      = .ok { var := v, outfile := some "output.png", categoricals := [] } := by
    rw [parseDistArgs, hscan]
    simp [hv, validCats]
  refine ⟨hparse, ?_⟩
  simp only [show_dist, hparse]
  rw [if_neg (by decide : ¬ check_valid_png "output.png" = -1)]
  simp

/-- C6 amended witness: the concrete default-outfile run on dfW. -/
theorem c6_default_outfile_witness :
    "age" ∈ get_numericals dfW
    ∧ isOpt "age" = false
    ∧ show_dist dfW ["age"]
      = .ok { events := [Event.savefig "output.png", Event.openImage "output.png",
                         Event.showImage "output.png"],
              plot := some (plot_dist dfW "age"), dataAfter := dfW } :=
  ⟨by decide, by decide, (c6_default_outfile dfW "age" (by decide) (by decide)).2⟩

/-- C10 counterexample: with an option-like numerical column name the token list
[v, v] does not pass argument parsing, so the claim fails as universally stated. -/
theorem c10_counterexample :
    "-x" ∈ get_numericals dfDash
    ∧ show_biv_dist dfDash ["-x", "-x"] = .error (.usageError .unrecognizedArguments) := by
  decide

/-- C10 (amended): no distinctness check: for every numerical column v whose name
is not an option-like token, [v, v] parses with v1 = v2 = v and the default plot
type, and the handler proceeds to build a plot. -/
theorem c10_no_distinctness (data : DataFrame) (v : String)
    (hv : v ∈ get_numericals data) (hopt : isOpt v = false) :
    parseBivArgs data [v, v]
      = .ok { v1 := v, v2 := v, plot_type := "heatmap",
              outfile := some "output.png", categoricals := [] }
    ∧ show_biv_dist data [v, v]
      = .ok { events := [Event.savefig "output.png", Event.openImage "output.png",
                         Event.showImage "output.png"],
              plot := some (plot_biv_dist data v v "heatmap"), dataAfter := data } := by
  have hscan : scanArgs [v, v]
      = .ok { positionals := [v, v], outfile := none, cats := none } := by
    have := scanFuel_positionals [v, v] 3 { positionals := [], outfile := none, cats := none }
      (by
        intro t ht
        have : t = v := by simpa using ht
        subst this
        exact hopt) (by simp)
    simpa [scanArgs] using this
  have hparse : parseBivArgs data [v, v]
      = .ok { v1 := v, v2 := v, plot_type := "heatmap",
              outfile := some "output.png", categoricals := [] } := by
    rw [parseBivArgs, hscan]
    simp [hv, validCats]
  refine ⟨hparse, ?_⟩
  simp only [show_biv_dist, hparse]
  rw [if_neg (by decide : ¬ check_valid_png "output.png" = -1)]
  simp

/-- C10 amended witness: the concrete repeated-variable run on dfW. -/
theorem c10_no_distinctness_witness :
    "age" ∈ get_numericals dfW
    ∧ isOpt "age" = false
    ∧ show_biv_dist dfW ["age", "age"]
      = .ok { events := [Event.savefig "output.png", Event.openImage "output.png",
                         Event.showImage "output.png"],
              plot := some (plot_biv_dist dfW "age" "age" "heatmap"), dataAfter := dfW } :=
  ⟨by decide, by decide, (c10_no_distinctness dfW "age" (by decide) (by decide)).2⟩

/-- C1 counterexample: in the bivariate multi-categorical call the displot receives
the original dataframe as data, while the univariate rule the claim appeals to
passes the re-indexed copy, which differs from the original; so the bivariate plot
is not built from the re-indexed data. -/
theorem c1_counterexample :
    show_biv_dist dfW ["age", "age", "-c", "sex", "city"]
      = .ok { events := [Event.savefig "output.png", Event.openImage "output.png",
                         Event.showImage "output.png"],
              plot := some pBivW, dataAfter := dfW }
    ∧ pBivW.data = dfW
    ∧ show_dist dfW ["age", "-c", "sex", "city"]
      = .ok { events := [Event.savefig "output.png", Event.openImage "output.png",
                         Event.showImage "output.png"],
              plot := some pUnivW, dataAfter := dfW }
    ∧ pUnivW.data ≠ dfW := by
  decide

/-- C1 (amended): with two or more categoricals the bivariate builder forms the
same underscore-joined composite labels as the univariate one and facets on that
label vector wrapped at 3, but its displot receives the original dataframe as data,
whereas the univariate builder passes the re-indexed, fused copy. -/
theorem c1_composite_faceting (data : DataFrame) (v1 v2 pt v : String)
    (cats : List String) (plotData : DataFrame) (labels : List String)
    (hlen : 1 < cats.length)
    (hset : setIndexCore data cats = some plotData)
    (hjoin : joinIndexRows plotData.index = .ok labels) :
    plot_biv_dist_by_categoricals data v1 v2 pt cats
      = .ok ({ data := data, x := v1, y := some v2,
               kind := if pt = "gaussian" then "kde" else "hist",
               col := some (ColSpec.vector labels), col_wrap := some 3 }, data)
    ∧ plot_dist_by_categoricals data v cats
      = .ok ({ data := { plotData with index := labels.map (fun l => [Value.str l]) },
               x := v, kde := true, bins := some "sqrt",
               col := some (ColSpec.vector labels), col_wrap := some 3 }, data) := by
  constructor
  · unfold plot_biv_dist_by_categoricals
    rw [if_pos hlen, set_index_false_of_core _ _ _ hset]
    simp [hjoin]
  · unfold plot_dist_by_categoricals
    rw [if_pos hlen, set_index_false_of_core _ _ _ hset]
    simp [hjoin]

theorem strsOfRow_isSome (row : List Value) :
    (strsOfRow row).isSome = row.all Value.isStr := by
  induction row with
  | nil => rfl
  | cons x xs ih =>
    cases x with
    | str s =>
      cases hxs : strsOfRow xs with
      | none =>
        rw [hxs] at ih
        simp [strsOfRow, hxs, Value.isStr, ← ih]
      | some bs =>
        rw [hxs] at ih
        simp [strsOfRow, hxs, Value.isStr, ← ih]
    | num n => simp [strsOfRow, Value.isStr]

theorem joinRow_classify (row : List Value) :
    (row.all Value.isStr = true ∧ ∃ s, joinRow row = .ok s)
    ∨ (row.all Value.isStr = false ∧ joinRow row = .error .typeError) := by
  have hs := strsOfRow_isSome row
  unfold joinRow
  cases h : strsOfRow row with
  | none =>
    rw [h] at hs
    right
    exact ⟨by simpa using hs.symm, rfl⟩
  | some parts =>
    rw [h] at hs
    left
    exact ⟨by simpa using hs.symm, ⟨_, rfl⟩⟩

theorem joinIndexRows_classify (idx : List (List Value)) :
    ((∀ row ∈ idx, row.all Value.isStr = true) ∧ ∃ ls, joinIndexRows idx = .ok ls)
    ∨ ((¬ ∀ row ∈ idx, row.all Value.isStr = true)
        ∧ joinIndexRows idx = .error .typeError) := by
  induction idx with
  | nil => exact Or.inl ⟨by simp, ⟨[], rfl⟩⟩
  | cons r rs ih =>
    rcases joinRow_classify r with ⟨hr, s, hs⟩ | ⟨hr, hs⟩
    · rcases ih with ⟨hall, ls, hls⟩ | ⟨hnall, hls⟩
      · left
        constructor
        · intro row hrow
          rcases List.mem_cons.mp hrow with rfl | hrow
          · exact hr
          · exact hall row hrow
        · refine ⟨s :: ls, ?_⟩
          unfold joinIndexRows
          rw [hs, hls]
      · right
        constructor
        · intro hc
          exact hnall (fun row hrow => hc row (List.mem_cons_of_mem r hrow))
        · unfold joinIndexRows
          rw [hs, hls]
    · right
      constructor
      · intro hc
        have := hc r (List.mem_cons_self r rs)
        rw [hr] at this
        simp at this
      · unfold joinIndexRows
        rw [hs]

theorem setIndexCore_found (df : DataFrame) (keys : List String) (pd : DataFrame)
    (h : setIndexCore df keys = some pd) :
    (∀ k ∈ keys, (df.findCol k).isSome = true)
    ∧ pd.index = (List.range df.nRows).map
        (fun i => (keys.filterMap df.findCol).map
          (fun c => c.values.getD i (Value.str ""))) := by
  unfold setIndexCore at h
  split at h
  next hall =>
    injection h with h
    subst h
    exact ⟨fun k hk => List.all_eq_true.mp hall k hk, rfl⟩
  · simp at h

theorem findCol_values_length (df : DataFrame) (k : String) (c : Column)
    (hwf : df.WellFormed) (hc : df.findCol k = some c) :
    c.values.length = df.nRows :=
  hwf c (List.mem_of_find?_eq_some hc)

theorem setIndex_allStr_iff (df : DataFrame) (keys : List String) (pd : DataFrame)
    (hwf : df.WellFormed) (h : setIndexCore df keys = some pd) :
    (∀ row ∈ pd.index, row.all Value.isStr = true)
    ↔ ∀ k ∈ keys, ∀ x ∈ df.colValues k, x.isStr = true := by
  obtain ⟨hfound, hidx⟩ := setIndexCore_found df keys pd h
  rw [hidx]
  constructor
  · intro H k hk x hx
    cases hc : df.findCol k with
    | none =>
      have := hfound k hk
      rw [hc] at this
      simp at this
    | some c =>
      have hxv : x ∈ c.values := by
        unfold DataFrame.colValues at hx
        rw [hc] at hx
        exact hx
      obtain ⟨i, hi, rfl⟩ := List.mem_iff_getElem.mp hxv
      have hilen : i < df.nRows := by
        rw [← findCol_values_length df k c hwf hc]
        exact hi
      have hrow := H ((keys.filterMap df.findCol).map
          (fun c2 => c2.values.getD i (Value.str "")))
        (List.mem_map.mpr ⟨i, List.mem_range.mpr hilen, rfl⟩)
      have hmem : c.values[i] ∈ (keys.filterMap df.findCol).map
          (fun c2 => c2.values.getD i (Value.str "")) := by
        refine List.mem_map.mpr ⟨c, List.mem_filterMap.mpr ⟨k, hk, hc⟩, ?_⟩
        exact List.getD_eq_getElem c.values (Value.str "") hi
      exact List.all_eq_true.mp hrow _ hmem
  · intro H row hrow
    obtain ⟨i, hi, rfl⟩ := List.mem_map.mp hrow
    have hin : i < df.nRows := List.mem_range.mp hi
    refine List.all_eq_true.mpr ?_
    intro x hx
    obtain ⟨c, hcmem, rfl⟩ := List.mem_map.mp hx
    obtain ⟨k, hk, hc⟩ := List.mem_filterMap.mp hcmem
    have hlen : c.values.length = df.nRows := findCol_values_length df k c hwf hc
    have hilen : i < c.values.length := by rw [hlen]; exact hin
    have hval : c.values.getD i (Value.str "") = c.values[i] :=
      List.getD_eq_getElem c.values (Value.str "") hilen
    rw [hval]
    refine H k hk _ ?_
    unfold DataFrame.colValues
    rw [hc]
    exact List.getElem_mem hilen

/-- C9: the composite-label construction string-joins each row's tuple of listed
categorical values with underscores; it succeeds exactly when every listed column
holds only string values, and when some listed column holds a non-string value the
builders raise a TypeError which propagates uncaught out of the handlers. -/
theorem c9_join_requires_strings (data : DataFrame) (v v1 v2 pt : String)
    (cats : List String) (plotData : DataFrame)
    (hwf : data.WellFormed)
    (hlen : 1 < cats.length)
    (hset : setIndexCore data cats = some plotData) :
    (exceptOk (joinIndexRows plotData.index) = true
        ↔ ∀ k ∈ cats, ∀ x ∈ data.colValues k, x.isStr = true)
    ∧ ((¬ ∀ k ∈ cats, ∀ x ∈ data.colValues k, x.isStr = true) →
        plot_dist_by_categoricals data v cats = .error .typeError
        ∧ plot_biv_dist_by_categoricals data v1 v2 pt cats = .error .typeError)
    ∧ (∀ args pa f, parseDistArgs data args = .ok pa → pa.var = v →
        pa.categoricals = cats → pa.outfile = some f → check_valid_png f ≠ -1 →
        plot_dist_by_categoricals data v cats = .error .typeError →
        show_dist data args = .error .typeError)
    ∧ (∀ args pa f, parseBivArgs data args = .ok pa → pa.v1 = v1 → pa.v2 = v2 →
        pa.plot_type = pt → pa.categoricals = cats → pa.outfile = some f →
        check_valid_png f ≠ -1 →
        plot_biv_dist_by_categoricals data v1 v2 pt cats = .error .typeError →
        show_biv_dist data args = .error .typeError) := by
  have hbridge := setIndex_allStr_iff data cats plotData hwf hset
  have hcats_ne : cats ≠ [] := by
    intro hnil
    rw [hnil] at hlen
    simp at hlen
  refine ⟨?_, ?_, ?_, ?_⟩
  · rcases joinIndexRows_classify plotData.index with ⟨hall, ls, hls⟩ | ⟨hnall, hls⟩
    · rw [hls]
      simp only [exceptOk, true_iff]
      exact hbridge.mp hall
    · rw [hls]
      constructor
      · intro hfalse
        exact absurd hfalse (by simp [exceptOk])
      · intro H
        exact absurd (hbridge.mpr H) hnall
  · intro hnot
    rcases joinIndexRows_classify plotData.index with ⟨hall, ls, hls⟩ | ⟨hnall, hls⟩
    · exact absurd (hbridge.mp hall) hnot
    · constructor
      · unfold plot_dist_by_categoricals
        rw [if_pos hlen, set_index_false_of_core _ _ _ hset]
        simp [hls]
      · unfold plot_biv_dist_by_categoricals
        rw [if_pos hlen, set_index_false_of_core _ _ _ hset]
        simp [hls]
  · intro args pa f hp hv hcats ho hpng herr
    simp only [show_dist, hp, ho]
    rw [if_neg hpng, if_neg (by rw [hcats]; exact hcats_ne)]
    rw [hv, hcats, herr]
  · intro args pa f hp hv1 hv2 hpt hcats ho hpng herr
    simp only [show_biv_dist, hp, ho]
    rw [if_neg hpng, if_neg (by rw [hcats]; exact hcats_ne)]
    rw [hv1, hv2, hpt, hcats, herr]

/-- C9 witness: on a dataset of string categoricals the join succeeds; with a
numeric categorical the builder raises TypeError and the handler propagates it. -/
theorem c9_join_requires_strings_witness :
    exceptOk (joinIndexRows pdW.index) = true
    ∧ plot_dist_by_categoricals dfBad "age" ["sex", "zip"] = .error .typeError
    ∧ show_dist dfBad ["age", "-c", "sex", "zip"] = .error .typeError := by
  have HW := c9_join_requires_strings dfW "age" "age" "age" "heatmap" ["sex", "city"] pdW
    (by decide) (by decide) (by decide)
  have HB := c9_join_requires_strings dfBad "age" "age" "age" "heatmap" ["sex", "zip"] pdBad
    (by decide) (by decide) (by decide)
  refine ⟨HW.1.mpr (by decide), (HB.2.1 (by decide)).1, ?_⟩
  exact HB.2.2.1 ["age", "-c", "sex", "zip"] ⟨"age", some "output.png", ["sex", "zip"]⟩
    "output.png" (by decide) rfl rfl rfl (by decide) ((HB.2.1 (by decide)).1)

/-- C1 amended witness: the concrete faceted builders on dfW. -/
theorem c1_composite_faceting_witness :
    plot_biv_dist_by_categoricals dfW "age" "age" "heatmap" ["sex", "city"]
      = .ok (pBivW, dfW)
    ∧ plot_dist_by_categoricals dfW "age" ["sex", "city"] = .ok (pUnivW, dfW) := by
  have H := c1_composite_faceting dfW "age" "age" "heatmap" "age" ["sex", "city"] pdW
    labelsW (by decide) (by decide) (by decide)
  constructor
  · rw [H.1]; decide
  · rw [H.2]; decide

end EDATool
